import Mathlib

/-!
Verification of the backend-abstraction layer in
`src/mmdeploy/codebase/base/backend_model.py`.

The file embeds the data model and the three operations the claims are
about: the static factory `BaseBackendModel._build_wrapper`, the facade
constructor `BaseBackendModel.__init__` (tensor-name resolution), and
`BaseBackendModel.destroy`.

Python exceptions are mapped to the error taxonomy of the specification:
an `IndexError` on `backend_files` is `MissingArtifact`, the
`AssertionError` guarding the SDK branch is `MissingConfiguration`, and
the `NotImplementedError` of the final `else` branch is
`UnsupportedBackend`.
-/

namespace MwMmdeploy

/-- Modelled from the spec: the `Backend` enumeration lives in
`mmdeploy.utils`, outside `src/`. The spec calls it a closed enumeration
(`EngineKind`). The nine dispatched members are read off the branch table
of `_build_wrapper`; `PYTORCH` and `DEFAULT` stand for the members of the
closed set that the dispatch table does not handle. -/
inductive Backend where
  | ONNXRUNTIME
  | TENSORRT
  | PPLNN
  | NCNN
  | OPENVINO
  | SDK
  | TORCHSCRIPT
  | ASCEND
  | SNPE
  | PYTORCH
  | DEFAULT
deriving DecidableEq, Repr

/-- Modelled from the spec: the task-type identifier carried in deployment
metadata (`get_task_type`, outside `src/`). -/
inductive TaskType where
  | Classification
  | Detection
  | Segmentation
deriving DecidableEq, Repr

/-- Modelled from the spec: `SDK_TASK_MAP` (outside `src/`) resolves a
task type to the class name used by the SDK wrapper; the map covers every
supported task type, so lookup of the `cls_name` field is total here. -/
def SDK_TASK_MAP : TaskType → String
  | .Classification => "Classifier"
  | .Detection => "Detector"
  | .Segmentation => "Segmentor"

/-- Modelled from the spec: the IR section of the deployment metadata, as
returned by `get_ir_config` (outside `src/`): optional declared input and
output tensor-name lists. `none` models an absent key. -/
structure IRConfig where
  input_names : Option (List String)
  output_names : Option (List String)
deriving DecidableEq, Repr

/-- Modelled from the spec: the backend section of the deployment
metadata, as returned by `get_backend_config` (outside `src/`): an
optional GPU-acceleration flag (`use_vulkan`). `none` models an absent
key. -/
structure BackendConfig where
  use_vulkan : Option Bool
deriving DecidableEq, Repr

/-- Modelled from the spec: the deployment metadata (`mmcv.Config`,
outside `src/`): structured configuration containing declared
input/output tensor names, a per-engine GPU-acceleration flag and a
task-type identifier. -/
structure Config where
  ir_config : IRConfig
  backend_config : BackendConfig
  task_type : TaskType
deriving DecidableEq, Repr

/-- Modelled from the spec: `get_ir_config` (outside `src/`) extracts the
IR section from the deployment metadata. -/
def get_ir_config (cfg : Config) : IRConfig := cfg.ir_config

/-- Modelled from the spec: `get_backend_config` (outside `src/`)
extracts the backend section from the deployment metadata. -/
def get_backend_config (cfg : Config) : BackendConfig := cfg.backend_config

/-- Modelled from the spec: `get_task_type` (outside `src/`) extracts the
task-type identifier from the deployment metadata. -/
def get_task_type (cfg : Config) : TaskType := cfg.task_type

/-- The constructed engine adapter, one constructor per branch of
`_build_wrapper`; each constructor records exactly the arguments the
source forwards to the corresponding wrapper class. -/
inductive Wrapper where
  | ORTWrapper (onnx_file : String) (device : String)
      (output_names : Option (List String))
  | TRTWrapper (engine : String) (output_names : Option (List String))
  | PPLNNWrapper (onnx_file : String) (algo_file : Option String)
      (device : String) (output_names : Option (List String))
  | NCNNWrapper (param_file : String) (bin_file : String)
      (output_names : Option (List String)) (use_vulkan : Bool)
  | OpenVINOWrapper (ir_model_file : String)
      (output_names : Option (List String))
  | SDKWrapper (model_file : String) (task_name : String) (device : String)
  | TorchscriptWrapper (model : String) (input_names : Option (List String))
      (output_names : Option (List String))
  | AscendWrapper (model : String) (device : String)
  | SNPEWrapper (dlc_file : String) (uri : Option String)
      (output_names : Option (List String))
deriving DecidableEq, Repr

/-- The error taxonomy of the factory: `MissingArtifact` is the
`IndexError` raised by `backend_files[i]` past the end of the list,
`MissingConfiguration` the `AssertionError` of the SDK branch, and
`UnsupportedBackend` the `NotImplementedError` of the final `else`. -/
inductive BuildError where
  | MissingArtifact
  | MissingConfiguration
  | UnsupportedBackend
deriving DecidableEq, Repr

namespace BaseBackendModel

/-- `BaseBackendModel._build_wrapper` (backend_model.py lines 36-120).
`uri` models the only `kwargs` entry the source reads (the SNPE branch);
`none` models its absence. Indexing `backend_files[i]` is `List.get?`,
with `none` mapped to `BuildError.MissingArtifact`. -/
def _build_wrapper (backend : Backend) (backend_files : List String)
    (device : String) (input_names : Option (List String))
    (output_names : Option (List String)) (deploy_cfg : Option Config)
    (uri : Option String) : Except BuildError Wrapper :=
  match backend with
  | .ONNXRUNTIME =>
    match backend_files.get? 0 with
    | some onnx_file => .ok (.ORTWrapper onnx_file device output_names)
    | none => .error .MissingArtifact
  | .TENSORRT =>
    match backend_files.get? 0 with
    | some engine => .ok (.TRTWrapper engine output_names)
    | none => .error .MissingArtifact
  | .PPLNN =>
    match backend_files.get? 0 with
    | some onnx_file =>
      let algo_file : Option String :=
        if backend_files.length > 1 then backend_files.get? 1 else none
      .ok (.PPLNNWrapper onnx_file algo_file device output_names)
    | none => .error .MissingArtifact
  | .NCNN =>
    let use_vulkan : Bool :=
      match deploy_cfg with
      | some cfg => (get_backend_config cfg).use_vulkan.getD false
      | none => false
    match backend_files.get? 0 with
    | some param_file =>
      match backend_files.get? 1 with
      | some bin_file =>
        .ok (.NCNNWrapper param_file bin_file output_names use_vulkan)
      | none => .error .MissingArtifact
    | none => .error .MissingArtifact
  | .OPENVINO =>
    match backend_files.get? 0 with
    | some ir_model_file => .ok (.OpenVINOWrapper ir_model_file output_names)
    | none => .error .MissingArtifact
  | .SDK =>
    match deploy_cfg with
    | none => .error .MissingConfiguration
    | some cfg =>
      let task_name := SDK_TASK_MAP (get_task_type cfg)
      match backend_files.get? 0 with
      | some model_file => .ok (.SDKWrapper model_file task_name device)
      | none => .error .MissingArtifact
  | .TORCHSCRIPT =>
    match backend_files.get? 0 with
    | some model => .ok (.TorchscriptWrapper model input_names output_names)
    | none => .error .MissingArtifact
  | .ASCEND =>
    match backend_files.get? 0 with
    | some model => .ok (.AscendWrapper model device)
    | none => .error .MissingArtifact
  | .SNPE =>
    match backend_files.get? 0 with
    | some dlc_file => .ok (.SNPEWrapper dlc_file uri output_names)
    | none => .error .MissingArtifact
  | .PYTORCH => .error .UnsupportedBackend
  | .DEFAULT => .error .UnsupportedBackend

/-- Membership in the closed dispatch table of `_build_wrapper`: the nine
backends with a branch of their own. -/
def inDispatchTable : Backend → Bool
  | .ONNXRUNTIME => true
  | .TENSORRT => true
  | .PPLNN => true
  | .NCNN => true
  | .OPENVINO => true
  | .SDK => true
  | .TORCHSCRIPT => true
  | .ASCEND => true
  | .SNPE => true
  | .PYTORCH => false
  | .DEFAULT => false

/-- Number of artifact paths a dispatched backend indexes into
`backend_files`: two for NCNN (`.param` and `.bin`), one everywhere else
(the second PPLNN artifact is optional). Meaningful only on backends in
the dispatch table. -/
def requiredArtifacts : Backend → Nat
  | .NCNN => 2
  | _ => 1

/-- `BaseBackendModel.__init__` (backend_model.py lines 16-33): resolves
`(input_name, output_names)` from the optional deployment metadata.
The source conditionals (input_names[0] if input_names else a fixed
default, output_names if output_names else a fixed singleton default,
lines 31-32) follow Python truthiness:
`None` and the empty list both fall back to the default. -/
def init (deploy_cfg : Option Config) : String × List String :=
  let input_names : Option (List String) :=
    match deploy_cfg with
    | some cfg => (get_ir_config cfg).input_names
    | none => none
  let output_names : Option (List String) :=
    match deploy_cfg with
    | some cfg => (get_ir_config cfg).output_names
    | none => none
  let input_name : String :=
    match input_names with
    | some (x :: _) => x
    | some [] => "input"
    | none => "input"
  let resolved_output_names : List String :=
    match output_names with
    | some (x :: xs) => x :: xs
    | some [] => ["output"]
    | none => ["output"]
  (input_name, resolved_output_names)

/-- The held engine adapter as the facade sees it: capability inspection
only, via hasattr on the destroy attribute. The adapter itself is an
external collaborator; its destroy routine is modelled as an observable
invocation that leaves the capability in place. -/
structure Adapter where
  hasDestroy : Bool
deriving DecidableEq, Repr

/-- The facade state `destroy` inspects: `wrapper = none` models a facade
on which no wrapper attribute was ever bound, so the first hasattr check
of the source is false. -/
structure Facade where
  wrapper : Option Adapter
  input_name : String
  output_names : List String
deriving DecidableEq, Repr

/-- `BaseBackendModel.destroy` (backend_model.py lines 122-124): returns
the facade state after the call and the number of times the destroy
routine of the adapter was invoked during the call. The source mutates
nothing on the facade: it only calls the destroy routine of the wrapper
when both hasattr checks pass. -/
def destroy (f : Facade) : Facade × Nat :=
  match f.wrapper with
  | some w => if w.hasDestroy then (f, 1) else (f, 0)
  | none => (f, 0)

/-- Two sequential `destroy()` calls on `f`: the total number of adapter
destroy invocations across both calls. -/
def destroyTwiceCount (f : Facade) : Nat :=
  let r1 := destroy f
  let r2 := destroy r1.1
  r1.2 + r2.2

end BaseBackendModel

/-- C1: for every backend in the dispatch table, calling `_build_wrapper`
with one fewer artifact path than that backend requires yields
`MissingArtifact` and never an error of a different kind, for all devices,
name hints, options and metadata (the SDK branch additionally needs its
deployment metadata supplied, since that requirement is checked first). -/
theorem build_one_fewer_artifact_missing (b : Backend)
    (hb : BaseBackendModel.inDispatchTable b = true)
    (files : List String)
    (hf : files.length + 1 = BaseBackendModel.requiredArtifacts b)
    (device : String) (ins outs : Option (List String))
    (cfg : Option Config) (uri : Option String)
    (hsdk : b = Backend.SDK → cfg.isSome = true) :
    BaseBackendModel._build_wrapper b files device ins outs cfg uri =
      .error BuildError.MissingArtifact := by
  cases b with
  | ONNXRUNTIME =>
    have h1 : files.length + 1 = 1 := hf
    obtain rfl : files = [] := List.length_eq_zero.mp (by omega)
    rfl
  | TENSORRT =>
    have h1 : files.length + 1 = 1 := hf
    obtain rfl : files = [] := List.length_eq_zero.mp (by omega)
    rfl
  | PPLNN =>
    have h1 : files.length + 1 = 1 := hf
    obtain rfl : files = [] := List.length_eq_zero.mp (by omega)
    rfl
  | NCNN =>
    have h1 : files.length + 1 = 2 := hf
    obtain ⟨a, rfl⟩ : ∃ a, files = [a] := List.length_eq_one.mp (by omega)
    cases cfg with
    | none => rfl
    | some c => rfl
  | OPENVINO =>
    have h1 : files.length + 1 = 1 := hf
    obtain rfl : files = [] := List.length_eq_zero.mp (by omega)
    rfl
  | SDK =>
    have h1 : files.length + 1 = 1 := hf
    obtain rfl : files = [] := List.length_eq_zero.mp (by omega)
    obtain ⟨c, rfl⟩ := Option.isSome_iff_exists.mp (hsdk rfl)
    rfl
  | TORCHSCRIPT =>
    have h1 : files.length + 1 = 1 := hf
    obtain rfl : files = [] := List.length_eq_zero.mp (by omega)
    rfl
  | ASCEND =>
    have h1 : files.length + 1 = 1 := hf
    obtain rfl : files = [] := List.length_eq_zero.mp (by omega)
    rfl
  | SNPE =>
    have h1 : files.length + 1 = 1 := hf
    obtain rfl : files = [] := List.length_eq_zero.mp (by omega)
    rfl
  | PYTORCH => simp [BaseBackendModel.inDispatchTable] at hb
  | DEFAULT => simp [BaseBackendModel.inDispatchTable] at hb

/-- Witness for C1 at the ONNXRUNTIME backend with no artifact paths. -/
theorem build_one_fewer_artifact_missing_witness :
    BaseBackendModel.inDispatchTable Backend.ONNXRUNTIME = true ∧
    ([] : List String).length + 1 =
      BaseBackendModel.requiredArtifacts Backend.ONNXRUNTIME ∧
    BaseBackendModel._build_wrapper Backend.ONNXRUNTIME [] "cuda:0" none none
      none none = .error BuildError.MissingArtifact :=
  ⟨rfl, rfl,
    build_one_fewer_artifact_missing Backend.ONNXRUNTIME rfl [] rfl "cuda:0"
      none none none none (by decide)⟩

/-- C2: for every backend outside the closed dispatch table,
`_build_wrapper` yields `UnsupportedBackend`, regardless of the artifact,
device, name, option or metadata arguments; no silent default branch is
taken. -/
theorem build_unsupported_backend (b : Backend)
    (hb : BaseBackendModel.inDispatchTable b = false)
    (files : List String) (device : String) (ins outs : Option (List String))
    (cfg : Option Config) (uri : Option String) :
    BaseBackendModel._build_wrapper b files device ins outs cfg uri =
      .error BuildError.UnsupportedBackend := by
  cases b <;>
    first
      | rfl
      | simp [BaseBackendModel.inDispatchTable] at hb

/-- Witness for C2 at the PYTORCH backend. -/
theorem build_unsupported_backend_witness :
    BaseBackendModel.inDispatchTable Backend.PYTORCH = false ∧
    BaseBackendModel._build_wrapper Backend.PYTORCH ["model.onnx"] "cpu" none
      none none none = .error BuildError.UnsupportedBackend :=
  ⟨rfl,
    build_unsupported_backend Backend.PYTORCH rfl ["model.onnx"] "cpu" none
      none none none⟩

/-- C3 counterexample: on a facade whose adapter exposes a destroy
capability, two sequential destroy calls invoke the destroy routine of
the adapter twice, not exactly once as the claim states: the source has
no idempotence guard, it re-runs both hasattr checks and delegates again. -/
theorem destroy_twice_once_counterexample :
    ¬ BaseBackendModel.destroyTwiceCount
        ⟨some ⟨true⟩, "input", ["output"]⟩ = 1 := by
  decide

/-- C3 amended: calling destroy twice on a facade whose adapter exposes a
destroy capability does not fail and leaves the facade state unchanged,
but invokes the destroy routine of the adapter once per call, hence twice
across the two calls. -/
theorem destroy_twice_invokes_once_per_call (name : String)
    (outs : List String) :
    BaseBackendModel.destroy ⟨some ⟨true⟩, name, outs⟩ =
      (⟨some ⟨true⟩, name, outs⟩, 1) ∧
    BaseBackendModel.destroyTwiceCount ⟨some ⟨true⟩, name, outs⟩ = 2 :=
  ⟨rfl, rfl⟩

/-- C4 counterexample: when the metadata supplies an empty output-name
list, the resolved output_names is not the supplied list unchanged: the
truthiness fallback replaces it with the singleton default. -/
theorem init_empty_output_list_counterexample :
    (BaseBackendModel.init
        (some ⟨⟨none, some []⟩, ⟨none⟩, TaskType.Classification⟩)).2 ≠
      ([] : List String) := by
  decide

/-- C4 amended: construction resolves the names purely from the supplied
metadata; input_name is the fixed default when input names are absent or
the supplied list is empty, else the first supplied input name, and
output_names is the fixed singleton default when output names are absent
or the supplied list is empty, else the supplied list unchanged. -/
theorem init_resolves_names :
    BaseBackendModel.init none = ("input", ["output"]) ∧
    (∀ outs bc tt,
      (BaseBackendModel.init (some ⟨⟨none, outs⟩, bc, tt⟩)).1 = "input") ∧
    (∀ outs bc tt,
      (BaseBackendModel.init (some ⟨⟨some [], outs⟩, bc, tt⟩)).1 = "input") ∧
    (∀ x xs outs bc tt,
      (BaseBackendModel.init (some ⟨⟨some (x :: xs), outs⟩, bc, tt⟩)).1 = x) ∧
    (∀ ins bc tt,
      (BaseBackendModel.init (some ⟨⟨ins, none⟩, bc, tt⟩)).2 = ["output"]) ∧
    (∀ ins bc tt,
      (BaseBackendModel.init (some ⟨⟨ins, some []⟩, bc, tt⟩)).2 = ["output"]) ∧
    (∀ ins y ys bc tt,
      (BaseBackendModel.init (some ⟨⟨ins, some (y :: ys)⟩, bc, tt⟩)).2 =
        y :: ys) := by
  refine ⟨rfl, ?_, ?_, ?_, ?_, ?_, ?_⟩ <;> intros <;> rfl

/-- C5: building the SDK backend without deployment metadata fails with
`MissingConfiguration` for every artifact list, device, name hints and
options; the whole result is the error, so no partially constructed
adapter is returned. -/
theorem build_sdk_without_cfg_missing_configuration (files : List String)
    (device : String) (ins outs : Option (List String)) (uri : Option String) :
    BaseBackendModel._build_wrapper Backend.SDK files device ins outs none
      uri = .error BuildError.MissingConfiguration := rfl

/-- C6: on the NCNN branch with both artifacts supplied, the adapter is
built with use_vulkan = false when no metadata is supplied or the flag is
absent from the metadata, and with the supplied flag value unchanged when
it is present. -/
theorem ncnn_use_vulkan_default_and_forward (f0 f1 : String)
    (rest : List String) (device : String) (ins outs : Option (List String))
    (uri : Option String) :
    (BaseBackendModel._build_wrapper Backend.NCNN (f0 :: f1 :: rest) device
        ins outs none uri = .ok (.NCNNWrapper f0 f1 outs false)) ∧
    (∀ ir tt,
      BaseBackendModel._build_wrapper Backend.NCNN (f0 :: f1 :: rest) device
        ins outs (some ⟨ir, ⟨none⟩, tt⟩) uri =
          .ok (.NCNNWrapper f0 f1 outs false)) ∧
    (∀ ir tt v,
      BaseBackendModel._build_wrapper Backend.NCNN (f0 :: f1 :: rest) device
        ins outs (some ⟨ir, ⟨some v⟩, tt⟩) uri =
          .ok (.NCNNWrapper f0 f1 outs v)) := by
  refine ⟨rfl, ?_, ?_⟩ <;> intros <;> rfl

/-- C7: on the PPLNN branch, two or more artifact paths forward the second
path as the companion algo file, and exactly one artifact path succeeds
with the companion file absent rather than raising an error. -/
theorem pplnn_second_artifact_optional (f0 : String) (device : String)
    (ins outs : Option (List String)) (cfg : Option Config)
    (uri : Option String) :
    (BaseBackendModel._build_wrapper Backend.PPLNN [f0] device ins outs cfg
        uri = .ok (.PPLNNWrapper f0 none device outs)) ∧
    (∀ f1 rest,
      BaseBackendModel._build_wrapper Backend.PPLNN (f0 :: f1 :: rest) device
        ins outs cfg uri = .ok (.PPLNNWrapper f0 (some f1) device outs)) := by
  refine ⟨rfl, ?_⟩
  intro f1 rest
  have hlen : (f0 :: f1 :: rest).length > 1 := by simp
  simp [BaseBackendModel._build_wrapper, hlen]

/-- C8: calling destroy on a facade whose adapter does not expose a
destroy capability performs no adapter call and leaves the facade state
unchanged; the call is defined as success. -/
theorem destroy_no_capability_noop (name : String) (outs : List String) :
    BaseBackendModel.destroy ⟨some ⟨false⟩, name, outs⟩ =
      (⟨some ⟨false⟩, name, outs⟩, 0) := rfl

/-- C9: calling destroy on a facade that holds no adapter at all is
total: it performs no adapter call and leaves the state unchanged, for
every such facade state. -/
theorem destroy_no_wrapper_noop (name : String) (outs : List String) :
    BaseBackendModel.destroy ⟨none, name, outs⟩ =
      (⟨none, name, outs⟩, 0) := rfl

/-- C10: on the SNPE branch, when no uri entry is present in the options
the build succeeds and the adapter is constructed with the connection
identifier defaulted to none; no error is raised for its absence. -/
theorem snpe_uri_absent_defaults_none (f0 : String) (rest : List String)
    (device : String) (ins outs : Option (List String)) (cfg : Option Config) :
    BaseBackendModel._build_wrapper Backend.SNPE (f0 :: rest) device ins outs
      cfg none = .ok (.SNPEWrapper f0 none outs) := rfl

end MwMmdeploy
